import Mathlib

/-!
Shallow embedding of `src/lib/easy-test.js` (the `EasyTest` helper library).

The file models the structural conformance checker `EasyTest.looksLike`
and its three adapters `testScope`, `testController` and `testService`.

Modelling choices:
* A JavaScript value is a closed variant (`JSValue`): `undefined`, `null`,
  booleans, numbers, strings, functions and plain objects.  Functions and
  objects carry their own enumerable members as an ordered association
  list; the prototype chain is not modelled (subjects are treated as bags
  of own members, which is how the library is used).
* A specification object is an ordered association list from kind names to
  space-separated member-name strings, in `Object.getOwnPropertyNames`
  key order (`Spec`).
* The `in` operator throws a `TypeError` when its right operand is not an
  object or a function, exactly as in JavaScript; fallible operations
  return `Except JSError`.
* `String.prototype.split(' ')` is embedded as `jsSplit`, splitting on
  every literal single space character (so consecutive spaces yield empty
  name entries, and the empty string splits to `[""]`).
-/

set_option autoImplicit false

/-- The two failure shapes `looksLike` can report (returned, not thrown). -/
inductive Failure where
  | missingMember (property : String)
  | wrongKind (property : String) (type : String)
deriving DecidableEq

/-- The exact message text carried by the `Error` object the source builds. -/
def Failure.message : Failure → String
  | .missingMember property =>
      "Expected object to have the property \x27" ++ property ++ "\x27."
  | .wrongKind property type =>
      "Expected property \x27" ++ property ++ "\x27 to be of type " ++ type ++ "."

/-- A thrown JavaScript exception (the checker itself never constructs one;
these arise only from language primitives such as the `in` operator). -/
inductive JSError where
  | typeError (message : String)
deriving DecidableEq

/-- A JavaScript runtime value, as a closed variant over the kinds the
checker can meet.  Objects and functions carry their own members. -/
inductive JSValue where
  | undefined
  | nul
  | boolean (b : Bool)
  | number (n : Int)
  | str (s : String)
  | func (props : List (String × JSValue))
  | obj (props : List (String × JSValue))

/-- The JavaScript `typeof` operator. -/
def typeOf : JSValue → String
  | .undefined => "undefined"
  | .nul => "object"
  | .boolean _ => "boolean"
  | .number _ => "number"
  | .str _ => "string"
  | .func _ => "function"
  | .obj _ => "object"

/-- The member list of an object-like value (`null` is not object-like). -/
def objProps : JSValue → Option (List (String × JSValue))
  | .func props => some props
  | .obj props => some props
  | _ => none

/-- Membership test on a member list (first component is the member name). -/
def hasMember (props : List (String × JSValue)) (name : String) : Bool :=
  props.any (fun p => p.1 == name)

/-- Member lookup on a member list; absent members read as `undefined`. -/
def readMember (props : List (String × JSValue)) (name : String) : JSValue :=
  match props.find? (fun p => p.1 == name) with
  | some p => p.2
  | none => .undefined

/-- The JavaScript `in` operator: membership test on an object-like value,
a `TypeError` on any other value. -/
def hasProp (object : JSValue) (property : String) : Except JSError Bool :=
  match objProps object with
  | some props => .ok (hasMember props property)
  | none =>
      .error (.typeError
        ("Cannot use \x27in\x27 operator to search for \x27" ++ property ++ "\x27"))

/-- JavaScript property read `object[name]`: a lookup on object-like
values, a `TypeError` on `null`/`undefined`, and `undefined` on boxed
primitives (whose built-in members are not modelled). -/
def getMember (object : JSValue) (name : String) : Except JSError JSValue :=
  match object with
  | .func props => .ok (readMember props name)
  | .obj props => .ok (readMember props name)
  | .nul =>
      .error (.typeError
        ("Cannot read properties of null (reading \x27" ++ name ++ "\x27)"))
  | .undefined =>
      .error (.typeError
        ("Cannot read properties of undefined (reading \x27" ++ name ++ "\x27)"))
  | _ => .ok .undefined

/-- Splitting a character list on every literal space, as
`String.prototype.split(' ')` does (empty pieces are kept). -/
def splitSpaceAux : List Char → List (List Char)
  | [] => [[]]
  | c :: cs =>
    if c = ' ' then [] :: splitSpaceAux cs
    else
      match splitSpaceAux cs with
      | [] => [[c]]
      | piece :: rest => (c :: piece) :: rest

/-- The source's `.split(' ')` call: split on single literal spaces. -/
def jsSplit (s : String) : List String :=
  (splitSpaceAux s.data).map (fun cs => String.mk cs)

/-- A specification object: kind names mapped to space-separated member
names, in `Object.getOwnPropertyNames` key order. -/
abbrev Spec := List (String × String)

/-- Body of the inner loop of `looksLike` for one member name: the
`property in object` test, then the `typeof object[property] !== type`
test, each returning the corresponding `Error` value on failure. -/
def checkProperty (object : JSValue) (type property : String) :
    Except JSError (Option Failure) :=
  match hasProp object property with
  | .error e => .error e
  | .ok has =>
    if !has then .ok (some (.missingMember property))
    else
      match getMember object property with
      | .error e => .error e
      | .ok value =>
        if typeOf value != type then .ok (some (.wrongKind property type))
        else .ok none

/-- The inner loop of `looksLike` over the member names of one kind,
stopping at the first failure. -/
def checkProperties (object : JSValue) (type : String) :
    List String → Except JSError (Option Failure)
  | [] => .ok none
  | property :: rest =>
    match checkProperty object type property with
    | .error e => .error e
    | .ok (some failure) => .ok (some failure)
    | .ok none => checkProperties object type rest

/-- Embedding of `EasyTest.looksLike(object, spec)`: iterate the spec entries in key
order, split each value on spaces, and check each named member in order;
return the first failure, or nothing (`none`) when every check passes. -/
def looksLike (object : JSValue) : Spec → Except JSError (Option Failure)
  | [] => .ok none
  | (type, names) :: rest =>
    match checkProperties object type (jsSplit names) with
    | .error e => .error e
    | .ok (some failure) => .ok (some failure)
    | .ok none => looksLike object rest

/-- Embedding of `EasyTest.testScope(context, scopeSpec)`: resolve a string argument via
`createTestContext` (an external collaborator, passed as a parameter), read
the context's `$scope` member and delegate to `looksLike`. -/
def testScope (createTestContext : JSValue → JSValue)
    (context : JSValue) (scopeSpec : Spec) : Except JSError (Option Failure) :=
  let ctx := if typeOf context == "string" then createTestContext context else context
  match getMember ctx "$scope" with
  | .error e => .error e
  | .ok scope => looksLike scope scopeSpec

/-- Embedding of `EasyTest.testController(controller, spec)`: resolve a string argument
via `getController` (external collaborator) and delegate to `looksLike`. -/
def testController (getController : JSValue → JSValue)
    (controller : JSValue) (spec : Spec) : Except JSError (Option Failure) :=
  let c := if typeOf controller == "string" then getController controller else controller
  looksLike c spec

/-- Embedding of `EasyTest.testService(service, spec)`: resolve a string argument via
`getService` (external collaborator) and delegate to `looksLike`. -/
def testService (getService : JSValue → JSValue)
    (service : JSValue) (spec : Spec) : Except JSError (Option Failure) :=
  let s := if typeOf service == "string" then getService service else service
  looksLike s spec

/-- The verdict of `looksLike` on a single (kind, member) pair of an object
subject, independent of every other pair. -/
def checkPair (props : List (String × JSValue)) (type property : String) :
    Option Failure :=
  if !hasMember props property then some (.missingMember property)
  else if typeOf (readMember props property) != type then
    some (.wrongKind property type)
  else none

/-- The first violation in a list of (kind, member) pairs, in order. -/
def firstFailure (props : List (String × JSValue)) :
    List (String × String) → Option Failure
  | [] => none
  | (type, property) :: rest =>
    match checkPair props type property with
    | some failure => some failure
    | none => firstFailure props rest

/-- The (kind, member) pairs a specification denotes, in check order:
spec key order, then member-list order within each entry. -/
def specPairs : Spec → List (String × String)
  | [] => []
  | (type, names) :: rest =>
    (jsSplit names).map (fun p => (type, p)) ++ specPairs rest

/-- Every violation among a list of (kind, member) pairs, in check order. -/
def allFailures (props : List (String × JSValue))
    (pairs : List (String × String)) : List Failure :=
  pairs.filterMap (fun q => checkPair props q.1 q.2)

/-- The human-readable message of a returned result, when it is a failure. -/
def resultMessage : Except JSError (Option Failure) → Option String
  | .ok (some failure) => some failure.message
  | _ => none

/-! State-instrumented version of `looksLike`.

To express that a call mutates neither of its inputs, the two inputs are
placed in an explicit call state and every primitive access of the source
is threaded through that state; the source performs only reads, so each
embedded primitive returns the state it was handed. -/

/-- The mutable environment a `looksLike` call can see: its two inputs. -/
structure CallState where
  object : JSValue
  spec : Spec

/-- The test `property in object`, performed against the state. -/
def hasPropState (st : CallState) (property : String) :
    Except JSError (Bool × CallState) :=
  match hasProp st.object property with
  | .ok b => .ok (b, st)
  | .error e => .error e

/-- The read `object[property]`, performed against the state. -/
def getMemberState (st : CallState) (property : String) :
    Except JSError (JSValue × CallState) :=
  match getMember st.object property with
  | .ok v => .ok (v, st)
  | .error e => .error e

/-- The read `spec[type]`, performed against the state (a missing key
would make the subsequent `.split` call throw). -/
def readSpecState (st : CallState) (type : String) :
    Except JSError (String × CallState) :=
  match st.spec.find? (fun e => e.1 == type) with
  | some e => .ok (e.2, st)
  | none =>
      .error (.typeError "Cannot read properties of undefined (reading \x27split\x27)")

/-- State-instrumented body of the inner loop for one member name. -/
def checkPropertyState (type property : String) (st : CallState) :
    Except JSError (Option Failure × CallState) :=
  match hasPropState st property with
  | .error e => .error e
  | .ok (has, st1) =>
    if !has then .ok (some (.missingMember property), st1)
    else
      match getMemberState st1 property with
      | .error e => .error e
      | .ok (value, st2) =>
        if typeOf value != type then .ok (some (.wrongKind property type), st2)
        else .ok (none, st2)

/-- State-instrumented inner loop over the member names of one kind. -/
def checkPropertiesState (type : String) :
    List String → CallState → Except JSError (Option Failure × CallState)
  | [], st => .ok (none, st)
  | property :: rest, st =>
    match checkPropertyState type property st with
    | .error e => .error e
    | .ok (some failure, st1) => .ok (some failure, st1)
    | .ok (none, st1) => checkPropertiesState type rest st1

/-- State-instrumented outer loop over the snapshot of spec key names. -/
def looksLikeStateLoop :
    List String → CallState → Except JSError (Option Failure × CallState)
  | [], st => .ok (none, st)
  | type :: rest, st =>
    match readSpecState st type with
    | .error e => .error e
    | .ok (names, st1) =>
      match checkPropertiesState type (jsSplit names) st1 with
      | .error e => .error e
      | .ok (some failure, st2) => .ok (some failure, st2)
      | .ok (none, st2) => looksLikeStateLoop rest st2

/-- State-instrumented `looksLike`: snapshot the spec keys
(`Object.getOwnPropertyNames`), then run the loops against the state. -/
def looksLikeState (st : CallState) : Except JSError (Option Failure × CallState) :=
  looksLikeStateLoop (st.spec.map Prod.fst) st

theorem hasProp_objProps (v : JSValue) (props : List (String × JSValue))
    (h : objProps v = some props) (p : String) :
    hasProp v p = .ok (hasMember props p) := by
  unfold hasProp
  rw [h]

theorem getMember_objProps (v : JSValue) (props : List (String × JSValue))
    (h : objProps v = some props) (n : String) :
    getMember v n = .ok (readMember props n) := by
  cases v <;> simp_all [objProps, getMember]

theorem checkProperty_obj (v : JSValue) (props : List (String × JSValue))
    (h : objProps v = some props) (type property : String) :
    checkProperty v type property = .ok (checkPair props type property) := by
  unfold checkProperty checkPair
  rw [hasProp_objProps v props h, getMember_objProps v props h]
  by_cases hm : hasMember props property <;> simp [hm]
  split <;> rfl

theorem checkProperties_obj (v : JSValue) (props : List (String × JSValue))
    (h : objProps v = some props) (type : String) :
    ∀ ps : List String, checkProperties v type ps =
      .ok (firstFailure props (ps.map (fun p => (type, p))))
  | [] => rfl
  | p :: rest => by
    rw [checkProperties, checkProperty_obj v props h]
    cases hc : checkPair props type p <;>
      simp [firstFailure, hc, checkProperties_obj v props h type rest]

theorem firstFailure_append (props : List (String × JSValue)) :
    ∀ l1 l2 : List (String × String),
      firstFailure props (l1 ++ l2) =
        match firstFailure props l1 with
        | some f => some f
        | none => firstFailure props l2
  | [], l2 => rfl
  | (t, p) :: rest, l2 => by
    rw [List.cons_append, firstFailure, firstFailure]
    cases hc : checkPair props t p <;> simp [firstFailure_append props rest l2]

theorem looksLike_obj (v : JSValue) (props : List (String × JSValue))
    (h : objProps v = some props) :
    ∀ s : Spec, looksLike v s = .ok (firstFailure props (specPairs s))
  | [] => rfl
  | (type, names) :: rest => by
    rw [looksLike, checkProperties_obj v props h, specPairs,
      firstFailure_append]
    cases hc : firstFailure props ((jsSplit names).map (fun p => (type, p))) <;>
      simp [hc, looksLike_obj v props h rest]

theorem firstFailure_all_pass (props : List (String × JSValue)) :
    ∀ (pre l : List (String × String)),
      (∀ q ∈ pre, checkPair props q.1 q.2 = none) →
      firstFailure props (pre ++ l) = firstFailure props l
  | [], l, _ => rfl
  | (t, p) :: rest, l, hpre => by
    rw [List.cons_append, firstFailure]
    have h0 : checkPair props t p = none := hpre (t, p) (by simp)
    rw [h0]
    exact firstFailure_all_pass props rest l (fun q hq => hpre q (by simp [hq]))

theorem firstFailure_eq_head (props : List (String × JSValue)) :
    ∀ l : List (String × String),
      firstFailure props l = (allFailures props l).head?
  | [] => rfl
  | (t, p) :: rest => by
    rw [firstFailure, allFailures, List.filterMap_cons]
    cases hc : checkPair props t p <;>
      simp [hc, firstFailure_eq_head props rest, allFailures]

theorem splitSpaceAux_append_space : ∀ (a rest : List Char), ' ' ∉ a →
    splitSpaceAux (a ++ ' ' :: rest) = a :: splitSpaceAux rest
  | [], rest, _ => by simp [splitSpaceAux]
  | c :: a, rest, h => by
    have hc : ¬ c = ' ' := fun hc => h (by simp [hc])
    rw [List.cons_append, splitSpaceAux, if_neg hc,
      splitSpaceAux_append_space a rest (fun hm => h (by simp [hm]))]

theorem find?_eq_of_nodup_keys :
    ∀ (s : Spec) (t v : String), (s.map Prod.fst).Nodup → (t, v) ∈ s →
      s.find? (fun e => e.1 == t) = some (t, v)
  | [], _, _, _, hmem => by simp at hmem
  | (k, w) :: rest, t, v, hnd, hmem => by
    rw [List.map_cons, List.nodup_cons] at hnd
    rcases List.mem_cons.mp hmem with heq | htail
    · rw [← heq]
      simp [List.find?_cons_of_pos]
    · have hk : k ≠ t := by
        intro hkt
        subst hkt
        exact hnd.1 (List.mem_map.mpr ⟨(k, v), htail, rfl⟩)
      rw [List.find?_cons_of_neg _ (by simp [hk]),
        find?_eq_of_nodup_keys rest t v hnd.2 htail]

theorem checkPropertyState_eq (type property : String) (st : CallState) :
    checkPropertyState type property st =
      Except.map (fun r => (r, st)) (checkProperty st.object type property) := by
  obtain ⟨o, s⟩ := st
  cases o with
  | undefined => rfl
  | nul => rfl
  | boolean b => rfl
  | number n => rfl
  | str s0 => rfl
  | func props =>
    by_cases hm : hasMember props property <;>
      by_cases ht : typeOf (readMember props property) != type <;>
        simp [checkPropertyState, checkProperty, hasPropState, getMemberState,
          hasProp, getMember, objProps, hm, ht, Except.map]
  | obj props =>
    by_cases hm : hasMember props property <;>
      by_cases ht : typeOf (readMember props property) != type <;>
        simp [checkPropertyState, checkProperty, hasPropState, getMemberState,
          hasProp, getMember, objProps, hm, ht, Except.map]

theorem checkPropertiesState_eq (type : String) :
    ∀ (ps : List String) (st : CallState),
      checkPropertiesState type ps st =
        Except.map (fun r => (r, st)) (checkProperties st.object type ps)
  | [], st => rfl
  | property :: rest, st => by
    rw [checkPropertiesState, checkPropertyState_eq, checkProperties]
    cases checkProperty st.object type property with
    | error e => rfl
    | ok r =>
      cases r with
      | some failure => rfl
      | none => simp [Except.map, checkPropertiesState_eq type rest st]

theorem looksLikeStateLoop_eq (o : JSValue) (s : Spec)
    (hnd : (s.map Prod.fst).Nodup) :
    ∀ (s2 s1 : Spec), s = s1 ++ s2 →
      looksLikeStateLoop (s2.map Prod.fst) ⟨o, s⟩ =
        Except.map (fun r => (r, (⟨o, s⟩ : CallState))) (looksLike o s2)
  | [], s1, _ => rfl
  | (type, names) :: rest, s1, hsplit => by
    have hmem : (type, names) ∈ s := by
      rw [hsplit]
      exact List.mem_append.mpr (Or.inr (by simp))
    have hfind : s.find? (fun e => e.1 == type) = some (type, names) :=
      find?_eq_of_nodup_keys s type names hnd hmem
    simp only [List.map_cons, looksLikeStateLoop, readSpecState, hfind,
      checkPropertiesState_eq, looksLike]
    cases checkProperties o type (jsSplit names) with
    | error e => rfl
    | ok r =>
      cases r with
      | some failure => rfl
      | none =>
        simp only [Except.map]
        exact looksLikeStateLoop_eq o s hnd rest (s1 ++ [(type, names)])
          (by rw [hsplit]; simp)

/-- Claim C1: `looksLike` is fail-fast and short-circuiting: on an object
subject the result is exactly the head of the ordered list of all
violations (spec key order, then member-list order within each entry), so
exactly the first violation is reported and violations are never
aggregated; in particular a violation under an earlier-listed kind is
reported in preference to one under a later-listed kind. -/
theorem looksLike_reports_first_violation_only
    (props : List (String × JSValue)) (spec : Spec) :
    looksLike (.obj props) spec =
      .ok ((allFailures props (specPairs spec)).head?) := by
  rw [looksLike_obj (.obj props) props rfl, firstFailure_eq_head]

/-- Claim C2: when the first (kind, member) pair reached in check order
(all earlier pairs passing) names a member absent from the subject,
`looksLike` returns a MissingMember failure naming that member, regardless
of the rest of the subject. -/
theorem looksLike_missing_member (props : List (String × JSValue)) (spec : Spec)
    (pre post : List (String × String)) (type m : String)
    (hsplit : specPairs spec = pre ++ (type, m) :: post)
    (hpre : ∀ q ∈ pre, checkPair props q.1 q.2 = none)
    (habs : hasMember props m = false) :
    looksLike (.obj props) spec = .ok (some (.missingMember m)) := by
  rw [looksLike_obj (.obj props) props rfl, hsplit,
    firstFailure_all_pass props pre ((type, m) :: post) hpre]
  simp [firstFailure, checkPair, habs]

theorem looksLike_missing_member_witness :
    looksLike (.obj []) [("function", "foo")] =
      .ok (some (.missingMember "foo")) :=
  looksLike_missing_member [] [("function", "foo")] [] [] "function" "foo"
    (by decide) (by simp) (by decide)

/-- Claim C3: when a required member exists on the subject but its runtime
kind differs from the declared kind, and no earlier-declared pair is in
violation, `looksLike` returns a WrongKind failure naming the member and
the expected kind. -/
theorem looksLike_wrong_kind (props : List (String × JSValue)) (spec : Spec)
    (pre post : List (String × String)) (type m : String)
    (hsplit : specPairs spec = pre ++ (type, m) :: post)
    (hpre : ∀ q ∈ pre, checkPair props q.1 q.2 = none)
    (hmem : hasMember props m = true)
    (hkind : typeOf (readMember props m) ≠ type) :
    looksLike (.obj props) spec = .ok (some (.wrongKind m type)) := by
  rw [looksLike_obj (.obj props) props rfl, hsplit,
    firstFailure_all_pass props pre ((type, m) :: post) hpre]
  simp [firstFailure, checkPair, hmem, hkind]

theorem looksLike_wrong_kind_witness :
    looksLike (.obj [("foo", .number 1)]) [("function", "foo")] =
      .ok (some (.wrongKind "foo" "function")) :=
  looksLike_wrong_kind [("foo", .number 1)] [("function", "foo")] [] []
    "function" "foo" (by decide) (by simp) (by decide) (by decide)

/-- Claim C4, counterexample: the claim says `looksLike` never raises for
any subject, including non-object subjects; but on the number `5` with a
non-empty spec the embedded `in` operator throws a TypeError, exactly as
in JavaScript, so the call does not complete normally. -/
theorem looksLike_nonobject_subject_throws :
    looksLike (.number 5) [("function", "foo")] =
      .error (.typeError "Cannot use \x27in\x27 operator to search for \x27foo\x27") := rfl

/-- Claim C4, amended: for every object-like subject (a plain object or a
function value) and every spec, `looksLike` completes normally, returning
failure only as a value and never raising. -/
theorem looksLike_object_subject_never_throws (object : JSValue)
    (props : List (String × JSValue)) (h : objProps object = some props)
    (spec : Spec) :
    ∃ r, looksLike object spec = .ok r :=
  ⟨firstFailure props (specPairs spec), looksLike_obj object props h spec⟩

theorem looksLike_object_subject_never_throws_witness :
    ∃ r, looksLike (.obj [("foo", .number 1)]) [("function", "foo")] = .ok r :=
  looksLike_object_subject_never_throws (.obj [("foo", .number 1)])
    [("foo", .number 1)] rfl [("function", "foo")]

/-- Claim C5: a specification with zero entries passes for any subject,
object or not. -/
theorem looksLike_empty_spec_passes (object : JSValue) :
    looksLike object [] = .ok none := rfl

/-- Claim C6: member-name splitting is on literal single spaces only, so a
spec value with consecutive spaces yields an empty-name entry, and the
empty name is checked exactly like an ordinary member: a subject without a
member named by the empty string gets a MissingMember failure naming the
empty string. -/
theorem looksLike_splits_on_single_spaces (props : List (String × JSValue))
    (type s a : String) (t : List Char)
    (hdata : s.data = a.data ++ ' ' :: ' ' :: t)
    (ha : ' ' ∉ a.data)
    (hfirst : checkPair props type a = none)
    (habs : hasMember props "" = false) :
    jsSplit s = a :: "" :: (splitSpaceAux t).map String.mk ∧
      looksLike (.obj props) [(type, s)] = .ok (some (.missingMember "")) := by
  have hsplit : jsSplit s = a :: "" :: (splitSpaceAux t).map String.mk := by
    unfold jsSplit
    rw [hdata, splitSpaceAux_append_space a.data (' ' :: t) ha, splitSpaceAux,
      if_pos rfl]
    simp
  refine ⟨hsplit, ?_⟩
  have hcp : checkPair props type "" = some (.missingMember "") := by
    simp [checkPair, habs]
  rw [looksLike_obj (.obj props) props rfl]
  have hpairs : specPairs [(type, s)] =
      (type, a) :: (type, "") :: ((splitSpaceAux t).map String.mk).map
        (fun p => (type, p)) := by
    simp [specPairs, hsplit]
  rw [hpairs]
  simp [firstFailure, hfirst, hcp]

theorem looksLike_splits_on_single_spaces_witness :
    jsSplit "a  b" = "a" :: "" :: (splitSpaceAux ("b" : String).data).map String.mk ∧
      looksLike (.obj [("a", .func [])]) [("function", "a  b")] =
        .ok (some (.missingMember "")) :=
  looksLike_splits_on_single_spaces [("a", .func [])] "function" "a  b" "a"
    ("b" : String).data (by decide) (by decide) (by decide) (by decide)

/-- Claim C7: each adapter forwards the checker's result unchanged on an
already-resolved (non-string) argument: `testController` and `testService`
return exactly `looksLike` on the argument, and `testScope` returns
exactly `looksLike` on the context's `$scope` member. -/
theorem adapters_return_checker_result (g1 g2 g3 : JSValue → JSValue)
    (c svc ctx scope : JSValue) (spec1 spec2 spec3 : Spec)
    (hc : typeOf c ≠ "string") (hsvc : typeOf svc ≠ "string")
    (hctx : typeOf ctx ≠ "string")
    (hscope : getMember ctx "$scope" = .ok scope) :
    testController g1 c spec1 = looksLike c spec1 ∧
      testService g2 svc spec2 = looksLike svc spec2 ∧
      testScope g3 ctx spec3 = looksLike scope spec3 := by
  refine ⟨?_, ?_, ?_⟩
  · simp [testController, hc]
  · simp [testService, hsvc]
  · simp [testScope, hctx, hscope]

theorem adapters_return_checker_result_witness :
    testController (fun _ => .undefined) (.obj []) [] = looksLike (.obj []) [] ∧
      testService (fun _ => .undefined) (.obj []) [] = looksLike (.obj []) [] ∧
      testScope (fun _ => .undefined) (.obj [("$scope", .obj [])]) [] =
        looksLike (.obj []) [] :=
  adapters_return_checker_result (fun _ => .undefined) (fun _ => .undefined)
    (fun _ => .undefined) (.obj []) (.obj []) (.obj [("$scope", .obj [])])
    (.obj []) [] [] [] (by decide) (by decide) (by decide) rfl

/-- Claim C8: `looksLike` is deterministic: two calls on identical inputs
return equal results, and in the failing case the same descriptive
message. -/
theorem looksLike_deterministic (object : JSValue) (spec : Spec)
    (r1 r2 : Except JSError (Option Failure))
    (h1 : looksLike object spec = r1) (h2 : looksLike object spec = r2) :
    r1 = r2 ∧ resultMessage r1 = resultMessage r2 := by
  subst h1
  subst h2
  exact ⟨rfl, rfl⟩

theorem looksLike_deterministic_witness :
    (Except.ok none : Except JSError (Option Failure)) = .ok none ∧
      resultMessage (.ok none) = resultMessage (.ok none) :=
  looksLike_deterministic (.obj []) [] (.ok none) (.ok none) rfl rfl

/-- Claim C9: `looksLike` has no side effects: the state-instrumented run,
in which every access of the source is threaded through the call state
holding the two inputs, returns the state unchanged, and its result is the
pure function `looksLike` of the two inputs alone.  (Spec keys are assumed
distinct, as they are on any JavaScript object.) -/
theorem looksLike_no_side_effects (object : JSValue) (spec : Spec)
    (hnd : (spec.map Prod.fst).Nodup) :
    looksLikeState ⟨object, spec⟩ =
      Except.map (fun r => (r, (⟨object, spec⟩ : CallState)))
        (looksLike object spec) := by
  unfold looksLikeState
  exact looksLikeStateLoop_eq object spec hnd spec [] rfl

theorem looksLike_no_side_effects_witness :
    looksLikeState ⟨.obj [], [("function", "f")]⟩ =
      Except.map (fun r => (r, (⟨.obj [], [("function", "f")]⟩ : CallState)))
        (looksLike (.obj []) [("function", "f")]) :=
  looksLike_no_side_effects (.obj []) [("function", "f")] (by decide)

/-- Claim C10: when a member name is listed under two different kinds in
one spec (the first-listed kind first in check order, every pair before
each of its two occurrences passing, the member present on the subject),
the behaviour is determined: if the member's runtime kind is the
first-listed kind, the occurrence under the second kind reports WrongKind
naming the member and the second kind; otherwise the occurrence under the
first kind already reports WrongKind naming the member and the first
kind. -/
theorem looksLike_duplicate_member_name (props : List (String × JSValue))
    (spec : Spec) (pre mid post : List (String × String)) (t1 t2 m : String)
    (hsplit : specPairs spec = pre ++ (t1, m) :: (mid ++ (t2, m) :: post))
    (hpre : ∀ q ∈ pre, checkPair props q.1 q.2 = none)
    (hmid : ∀ q ∈ mid, checkPair props q.1 q.2 = none)
    (hne : t1 ≠ t2)
    (hmem : hasMember props m = true) :
    (typeOf (readMember props m) = t1 →
      looksLike (.obj props) spec = .ok (some (.wrongKind m t2))) ∧
    (typeOf (readMember props m) ≠ t1 →
      looksLike (.obj props) spec = .ok (some (.wrongKind m t1))) := by
  rw [looksLike_obj (.obj props) props rfl, hsplit,
    firstFailure_all_pass props pre _ hpre]
  constructor
  · intro hk
    have hcp1 : checkPair props t1 m = none := by
      simp [checkPair, hmem, hk]
    rw [firstFailure, hcp1,
      firstFailure_all_pass props mid ((t2, m) :: post) hmid, firstFailure]
    have hcp2 : checkPair props t2 m = some (.wrongKind m t2) := by
      simp [checkPair, hmem, hk, hne]
    rw [hcp2]
  · intro hk
    have hcp1 : checkPair props t1 m = some (.wrongKind m t1) := by
      simp [checkPair, hmem, hk]
    rw [firstFailure, hcp1]

theorem looksLike_duplicate_member_name_witness :
    looksLike (.obj [("foo", .func [])])
        [("function", "foo"), ("number", "foo")] =
      .ok (some (.wrongKind "foo" "number")) :=
  (looksLike_duplicate_member_name [("foo", .func [])]
    [("function", "foo"), ("number", "foo")] [] [] [] "function" "number" "foo"
    (by decide) (by simp) (by simp) (by decide) (by decide)).1 (by decide)
